import Mathlib

/-!
Shallow embedding of `src/lib/mockMethodMatchers.mjs`: Jest-style expect
matchers for the native Node.js test-runner mock (`mock.fn()`).

JavaScript values are modelled by the inductive `Value`; the jest `toEqual`
deep-equality primitive (an external collaborator) is modelled as structural
equality on `Value`.  A recorded invocation of a mock is a `CallRecord`,
which either completed with a result or raised an error (in the Node mock
record the two fields are mutually exclusive: a raised call has
`result === undefined`, a completed call has `error === undefined`).

A candidate value handed to a matcher is a `Received`: either not callable,
a plain callable without an object-typed `mock` property, or a recognised
`mock.fn()` carrying its list of call records.

Matcher functions return `Except MatcherError MatchResult`: `.error` models
a synchronously thrown `TypeError`, `.ok` a normal `{pass, message}` result
(the JS `message` thunk is a pure function of captured state, so it is
modelled as the `String` it produces).  The `jest-matcher-utils` and `chalk`
externals are modelled as deterministic string builders (colours as the
identity, i.e. the colour-stripped text).

All nth-call indices are modelled as `Rat` because JS numbers admit
non-integer values: JS array indexing `calls[i]` with a fractional `i`
yields `undefined`, which `jsElementAt` models by returning `none`.
-/

/-- Model of a JavaScript value, rich enough for the matchers' comparisons. -/
inductive Value where
  | undefined : Value
  | null : Value
  | bool : Bool → Value
  | num : Int → Value
  | str : String → Value
  | arr : List Value → Value

mutual

/-- Structural (deep) equality on modelled JS values. -/
def Value.beq : Value → Value → Bool
  | .undefined, .undefined => true
  | .null, .null => true
  | .bool a, .bool b => a == b
  | .num a, .num b => a == b
  | .str a, .str b => a == b
  | .arr a, .arr b => Value.listBeq a b
  | _, _ => false

/-- Pointwise deep equality of two JS arrays. -/
def Value.listBeq : List Value → List Value → Bool
  | [], [] => true
  | x :: xs, y :: ys => Value.beq x y && Value.listBeq xs ys
  | _, _ => false

end

/-- The jest deep-equality primitive `expect(a).toEqual(b)` succeeding,
as used by the matchers (external collaborator of the matcher set). -/
def toEqual (a b : Value) : Bool := Value.beq a b

/-- JS `typeof` on a modelled value. -/
def jsTypeof : Value → String
  | .undefined => "undefined"
  | .null => "object"
  | .bool _ => "boolean"
  | .num _ => "number"
  | .str _ => "string"
  | .arr _ => "object"

mutual

/-- Rendering of a value for messages (models `jest-matcher-utils` stringify). -/
def stringify : Value → String
  | .undefined => "undefined"
  | .null => "null"
  | .bool true => "true"
  | .bool false => "false"
  | .num n => toString n
  | .str s => "\"" ++ s ++ "\""
  | .arr xs => "[" ++ stringifyList xs ++ "]"

/-- Comma-separated rendering of an array's elements. -/
def stringifyList : List Value → String
  | [] => ""
  | [x] => stringify x
  | x :: xs => stringify x ++ ", " ++ stringifyList xs

end

/-- `chalk.green` — colour codes are modelled away (colour-stripped text). -/
def EXPECTED_COLOR (s : String) : String := s

/-- `chalk.red` — colour codes are modelled away (colour-stripped text). -/
def RECEIVED_COLOR (s : String) : String := s

/-- Model of `jest-matcher-utils`'s `printExpected`. -/
def printExpected (v : Value) : String := EXPECTED_COLOR (stringify v)

/-- Model of `jest-matcher-utils`'s `printReceived`. -/
def printReceived (v : Value) : String := RECEIVED_COLOR (stringify v)

/-- Model of `jest-matcher-utils`'s `matcherHint`: a one-line hint that
names the matcher, the receiver display text and the expected placeholder. -/
def matcherHint (matcherName received expected : String) : String :=
  "expect(" ++ received ++ ")." ++ matcherName ++ "(" ++ expected ++ ")"

/-- Model of `jest-matcher-utils`'s `matcherErrorMessage`. -/
def matcherErrorMessage (hint specific : String) : String :=
  hint ++ "\n\n" ++ specific

/-- One recorded invocation of a Node.js `mock.fn()`: its arguments plus
either a result (completed) or an error (raised) — mutually exclusive. -/
inductive CallRecord where
  | returned (args : List Value) (result : Value)
  | raised (args : List Value) (error : Value)

instance : Inhabited CallRecord := ⟨.returned [] .undefined⟩

/-- The record's `arguments` field. -/
def CallRecord.arguments : CallRecord → List Value
  | .returned args _ => args
  | .raised args _ => args

/-- The record's `result` field: `undefined` when the invocation raised. -/
def CallRecord.result : CallRecord → Value
  | .returned _ r => r
  | .raised _ _ => .undefined

/-- The JS test `call.error === undefined`: true iff the call completed. -/
def CallRecord.errorIsUndefined : CallRecord → Bool
  | .returned _ _ => true
  | .raised _ _ => false

/-- A candidate value passed to a matcher: not callable (carrying the value,
so that `typeof` can be reported), callable but without an object-typed
`mock` property, or a recognised `mock.fn()` with its call history. -/
inductive Received where
  | notCallable (v : Value)
  | callableNonMock
  | mockFn (calls : List CallRecord)

/-- The `received.mock.calls` list (meaningful only for a recognised mock). -/
def mockCalls : Received → List CallRecord
  | .mockFn calls => calls
  | _ => []

/-- Whether the candidate is the recognised spy shape. -/
def isNodeMock : Received → Bool
  | .mockFn _ => true
  | _ => false

/-- A matcher's normal `{pass, message}` result record. -/
structure MatchResult where
  pass : Bool
  message : String

/-- A synchronously thrown error (`TypeError` in the source). -/
inductive MatcherError where
  | typeError (message : String)

/-- Source `argumentsMatch(callArgs, expectedArgs)`: lengths equal and every
position deep-equals the expected value at that position. -/
def argumentsMatch (callArgs expectedArgs : List Value) : Bool :=
  if callArgs.length != expectedArgs.length then false
  else (callArgs.zip expectedArgs).all fun p => toEqual p.1 p.2

/-- Source `formatExpectedArgs(args)`. -/
def formatExpectedArgs (args : List Value) : String :=
  if args.length = 0 then "called with 0 arguments"
  else String.intercalate ", " (args.map printExpected)

/-- Source `ensureReceivedIsNodeMock(received, matcherName, options)`:
throws a `TypeError` when the candidate is not a function, or is a function
without an object-typed `mock` property; returns `true` otherwise. -/
def ensureReceivedIsNodeMock (received : Received) (matcherName : String) :
    Except MatcherError Bool :=
  match received with
  | .notCallable v =>
      .error (.typeError (matcherErrorMessage
        (matcherHint matcherName (jsTypeof v) "function")
        (RECEIVED_COLOR "received" ++ " value must be a function")))
  | .callableNonMock =>
      .error (.typeError (matcherErrorMessage
        (matcherHint matcherName "mock.fn()" "")
        (RECEIVED_COLOR "received" ++ " value must be a node mock function")))
  | .mockFn _ => .ok true

/-- JS array element access `calls[i]` for a numeric index `i`:
a defined element only when `i` is a non-negative integer in range;
any fractional, negative or out-of-range index yields `undefined` (`none`). -/
def jsElementAt (calls : List CallRecord) (i : Rat) : Option CallRecord :=
  if i.den = 1 ∧ 0 ≤ i.num then calls.get? i.num.toNat else none

/-- Source `toHaveBeenCalled(receivedMethod, ...args)`: pass iff the mock
was called at least once; a supplied expected argument yields a `pass:false`
result carrying a "Matcher error" usage message. -/
def toHaveBeenCalled (receivedMethod : Received) (args : List Value) :
    Except MatcherError MatchResult :=
  match ensureReceivedIsNodeMock receivedMethod "toHaveBeenCalled" with
  | .error e => .error e
  | .ok _ =>
    let hint := "\n" ++ matcherHint "toHaveBeenCalled" "mock.fn()" "" ++ "\n\n"
    match args with
    | a :: _ =>
        .ok ⟨false,
          hint ++ "Matcher error: this matcher must not have an expected argument\n" ++
            "Expected has type:  " ++ jsTypeof a ++ "\nExpected has value: " ++
            EXPECTED_COLOR (stringify a) ++ "\n"⟩
    | [] =>
      let calls := mockCalls receivedMethod
      let pass := decide (0 < calls.length)
      let callsCount := calls.length
      let message :=
        if pass then
          "Expected number of calls: " ++ EXPECTED_COLOR "0" ++
            "\nReceived number of calls: " ++ RECEIVED_COLOR (toString callsCount) ++ "\n"
        else
          "Expected number of calls: >= " ++ EXPECTED_COLOR "1" ++
            "\nReceived number of calls:    " ++ RECEIVED_COLOR "0" ++ "\n"
      .ok ⟨pass, hint ++ message⟩

/-- Source `toHaveBeenCalledTimes(receivedMethod, expected)`: pass iff the
record count strictly equals `expected`. -/
def toHaveBeenCalledTimes (receivedMethod : Received) (expected : Int) :
    Except MatcherError MatchResult :=
  match ensureReceivedIsNodeMock receivedMethod "toHaveBeenCalledTimes" with
  | .error e => .error e
  | .ok _ =>
    let received := (mockCalls receivedMethod).length
    let hint := "\n" ++ matcherHint "toHaveBeenCalledTimes" "mock.fn()" "expected" ++ "\n\n"
    let pass := decide ((received : Int) = expected)
    let message :=
      if pass then
        hint ++ "Expected number of calls: not " ++ EXPECTED_COLOR (toString received) ++ "\n"
      else
        hint ++ "Expected number of calls: " ++ EXPECTED_COLOR (toString expected) ++
          "\nReceived number of calls: " ++ RECEIVED_COLOR (toString received) ++ "\n"
    .ok ⟨pass, message⟩

/-- Source `toHaveBeenCalledWith(receivedMethod, ...args)`: pass iff some
call record's full argument sequence matches `args`. -/
def toHaveBeenCalledWith (receivedMethod : Received) (args : List Value) :
    Except MatcherError MatchResult :=
  match ensureReceivedIsNodeMock receivedMethod "toHaveBeenCalledWith" with
  | .error e => .error e
  | .ok _ =>
    let calls := mockCalls receivedMethod
    let pass := calls.any fun call => argumentsMatch call.arguments args
    let expectedMsg :=
      "Expected: " ++ (if pass then "not " else "") ++ formatExpectedArgs args
    let receivedMsg :=
      if calls.length = 0 then "But the function was not called"
      else
        "\n\nReceived\n" ++ String.intercalate "\n" (calls.enum.map fun p =>
          let callArgs := p.2.arguments
          if callArgs.length = 0 then "\t" ++ toString p.1 ++ ": called with 0 arguments"
          else "\t" ++ toString p.1 ++ ": " ++
            String.intercalate ", " (callArgs.map printReceived))
    .ok ⟨pass,
      "\n" ++ matcherHint "toHaveBeenCalledWith" "mock.fn()" "...expected" ++ "\n\n" ++
        expectedMsg ++ receivedMsg ++ "\n\nNumber of calls: " ++
        RECEIVED_COLOR (toString calls.length) ++ "\n"⟩

/-- Source `toHaveBeenLastCalledWith(receivedMethod, ...args)`: pass iff the
most recent call record's arguments match `args`; zero calls fail. -/
def toHaveBeenLastCalledWith (receivedMethod : Received) (args : List Value) :
    Except MatcherError MatchResult :=
  match ensureReceivedIsNodeMock receivedMethod "toHaveBeenLastCalledWith" with
  | .error e => .error e
  | .ok _ =>
    let calls := mockCalls receivedMethod
    let callsCount := calls.length
    if callsCount = 0 then
      .ok ⟨false,
        matcherHint "toHaveBeenLastCalledWith" "mock.fn()" "...expected" ++ "\n\n" ++
          "Expected: " ++ formatExpectedArgs args ++ "\n" ++
          "But the function was not called\n\nNumber of calls: " ++
          RECEIVED_COLOR (toString (0 : Nat)) ++ "\n"⟩
    else
      let lastCall := calls.getD (callsCount - 1) default
      let pass := argumentsMatch lastCall.arguments args
      let receivedArgs := String.intercalate ", " (lastCall.arguments.map printReceived)
      .ok ⟨pass,
        matcherHint "toHaveBeenLastCalledWith" "mock.fn()" "...expected" ++ "\n\n" ++
          "Expected: " ++ (if pass then "not " else "") ++ formatExpectedArgs args ++ "\n\n\n" ++
          "Received: " ++ (if receivedArgs = "" then "called with 0 arguments" else receivedArgs) ++
          "\n\nNumber of calls: " ++ RECEIVED_COLOR (toString callsCount) ++ "\n"⟩

/-- Source `toHaveBeenNthCalledWith(receivedMethod, nthCallIndex, ...args)`:
out-of-range 1-based index fails; in range, pass iff that record's arguments
match.  The index is a JS number (here `Rat`); past the range guard the
source reads `calls[nthCallIndex - 1].arguments`, which throws a `TypeError`
when the element access yields `undefined` (fractional index). -/
def toHaveBeenNthCalledWith (receivedMethod : Received) (nthCallIndex : Rat)
    (args : List Value) : Except MatcherError MatchResult :=
  match ensureReceivedIsNodeMock receivedMethod "toHaveBeenNthCalledWith" with
  | .error e => .error e
  | .ok _ =>
    let calls := mockCalls receivedMethod
    let callsCount := calls.length
    if nthCallIndex < 1 ∨ nthCallIndex > (callsCount : Rat) then
      .ok ⟨false,
        matcherHint "toHaveBeenNthCalledWith" "mock.fn()" "...expected" ++ "\n\n" ++
          "n: " ++ toString nthCallIndex ++ "\n" ++
          "Expected: " ++ formatExpectedArgs args ++ "\n" ++
          "But the function was " ++
          (if callsCount = 0 then "not called"
           else "only called " ++ toString callsCount ++ " time(s)") ++
          "\n\nNumber of calls: " ++ RECEIVED_COLOR (toString callsCount) ++ "\n"⟩
    else
      match jsElementAt calls (nthCallIndex - 1) with
      | none =>
          .error (.typeError "Cannot read properties of undefined (reading 'arguments')")
      | some nthCall =>
        let pass := argumentsMatch nthCall.arguments args
        let receivedArgs := String.intercalate ", " (nthCall.arguments.map printReceived)
        .ok ⟨pass,
          matcherHint "toHaveBeenNthCalledWith" "mock.fn()" "...expected" ++ "\n\n" ++
            "n: " ++ toString nthCallIndex ++ "\n" ++
            "Expected: " ++ (if pass then "not " else "") ++ formatExpectedArgs args ++ "\n" ++
            "Received: " ++ (if receivedArgs = "" then "called with 0 arguments" else receivedArgs) ++
            "\n\nNumber of calls: " ++ RECEIVED_COLOR (toString callsCount) ++ "\n"⟩

/-- Source `toHaveReturned(receivedMethod)`: pass iff some call record
completed without an error (`call.error === undefined`). -/
def toHaveReturned (receivedMethod : Received) : Except MatcherError MatchResult :=
  match ensureReceivedIsNodeMock receivedMethod "toHaveReturned" with
  | .error e => .error e
  | .ok _ =>
    let pass := (mockCalls receivedMethod).any fun call => call.errorIsUndefined
    let hint := "\n" ++ matcherHint "toHaveReturned" "mock.fn()" "" ++ "\n\n"
    let message :=
      if pass then
        hint ++ "Expected: " ++ printExpected (.str "not to return an error") ++
          "\nReceived: " ++ printReceived (.str "returned without error")
      else
        hint ++ "Expected: " ++ printExpected (.str "not to return an error") ++
          "\nReceived: " ++ printReceived (.str "returned with error")
    .ok ⟨pass, message⟩

/-- Source `toReturn(receivedMethod)`: delegates to `toHaveReturned`. -/
def toReturn (receivedMethod : Received) : Except MatcherError MatchResult :=
  toHaveReturned receivedMethod

/-- Source `toHaveReturnedTimes(receivedMethod, times)`: pass iff the count
of error-free call records strictly equals `times`. -/
def toHaveReturnedTimes (receivedMethod : Received) (times : Int) :
    Except MatcherError MatchResult :=
  match ensureReceivedIsNodeMock receivedMethod "toHaveReturnedTimes" with
  | .error e => .error e
  | .ok _ =>
    let successfulReturns :=
      ((mockCalls receivedMethod).filter fun call => call.errorIsUndefined).length
    let pass := decide ((successfulReturns : Int) = times)
    .ok ⟨pass,
      "\n" ++ matcherHint "toHaveReturnedTimes" "mock.fn()" "expected" ++ "\n\n" ++
        "Expected: " ++ (if pass then "not " else "") ++
        EXPECTED_COLOR (toString times) ++ "\n" ++
        "Received: " ++ RECEIVED_COLOR (toString successfulReturns)⟩

/-- Source `toHaveReturnedWith(receivedMethod, expected)`: pass iff some
call record's `result` field deep-equals `expected` (a raised record's
`result` is `undefined`, so it is still compared). -/
def toHaveReturnedWith (receivedMethod : Received) (expected : Value) :
    Except MatcherError MatchResult :=
  match ensureReceivedIsNodeMock receivedMethod "toHaveReturnedWith" with
  | .error e => .error e
  | .ok _ =>
    let calls := mockCalls receivedMethod
    let pass := calls.any fun call => toEqual call.result expected
    let allResults := calls.map fun call => call.result
    .ok ⟨pass,
      "\n" ++ matcherHint "toHaveReturnedWith" "mock.fn()" "expected" ++ "\n\n" ++
        "Expected: " ++ (if pass then "not " else "") ++ printExpected expected ++ "\n" ++
        "Received: " ++ printReceived (.arr allResults)⟩

/-- Source `toHaveLastReturnedWith(receivedMethod, expected)`: zero calls
fail; otherwise pass iff the most recent record's `result` field deep-equals
`expected` (a raised record's `result` is `undefined`). -/
def toHaveLastReturnedWith (receivedMethod : Received) (expected : Value) :
    Except MatcherError MatchResult :=
  match ensureReceivedIsNodeMock receivedMethod "toHaveLastReturnedWith" with
  | .error e => .error e
  | .ok _ =>
    let calls := mockCalls receivedMethod
    if calls.length = 0 then
      .ok ⟨false,
        "\n" ++ matcherHint "toHaveLastReturnedWith" "mock.fn()" "expected" ++ "\n\n" ++
          "Expected: " ++ printExpected expected ++ "\nBut the function was not called"⟩
    else
      let lastCall := calls.getD (calls.length - 1) default
      let pass := toEqual lastCall.result expected
      .ok ⟨pass,
        "\n" ++ matcherHint "toHaveLastReturnedWith" "mock.fn()" "expected" ++ "\n\n" ++
          "Expected: " ++ (if pass then "not " else "") ++ printExpected expected ++ "\n" ++
          "Received: " ++ printReceived lastCall.result⟩

/-- Source `toHaveNthReturnedWith(receivedMethod, nthCall, expected)`:
out-of-range 1-based index fails; in range, pass iff that record's `result`
field deep-equals `expected`.  Past the range guard the source reads
`calls[nthCall - 1].result`, which throws a `TypeError` when the element
access yields `undefined` (fractional index). -/
def toHaveNthReturnedWith (receivedMethod : Received) (nthCall : Rat)
    (expected : Value) : Except MatcherError MatchResult :=
  match ensureReceivedIsNodeMock receivedMethod "toHaveNthReturnedWith" with
  | .error e => .error e
  | .ok _ =>
    let calls := mockCalls receivedMethod
    if nthCall < 1 ∨ nthCall > (calls.length : Rat) then
      .ok ⟨false,
        "\n" ++ matcherHint "toHaveNthReturnedWith" "mock.fn()" "expected" ++ "\n\n" ++
          "n: " ++ toString nthCall ++ "\n" ++
          "Expected: " ++ printExpected expected ++ "\n" ++
          "But the function was " ++
          (if calls.length = 0 then "not called"
           else "only called " ++ toString calls.length ++ " time(s)")⟩
    else
      match jsElementAt calls (nthCall - 1) with
      | none =>
          .error (.typeError "Cannot read properties of undefined (reading 'result')")
      | some record =>
        let nthCallResult := record.result
        let pass := toEqual nthCallResult expected
        .ok ⟨pass,
          "\n" ++ matcherHint "toHaveNthReturnedWith" "mock.fn()" "expected" ++ "\n\n" ++
            "n: " ++ toString nthCall ++ "\n" ++
            "Expected: " ++ (if pass then "not " else "") ++ printExpected expected ++ "\n" ++
            "Received: " ++ printReceived nthCallResult⟩

/-- The argument shape of one invocation of one matcher from the exported
matcher set (the matcher name together with its expected arguments). -/
inductive MatcherArgs where
  | called (args : List Value)
  | calledTimes (expected : Int)
  | calledWith (args : List Value)
  | lastCalledWith (args : List Value)
  | nthCalledWith (n : Rat) (args : List Value)
  | ret
  | retAlias
  | retTimes (times : Int)
  | retWith (expected : Value)
  | lastRetWith (expected : Value)
  | nthRetWith (n : Rat) (expected : Value)

/-- The matcher name that the invocation reports in diagnostics (the alias
`toReturn` delegates to `toHaveReturned`, which is the name it reports). -/
def MatcherArgs.name : MatcherArgs → String
  | .called _ => "toHaveBeenCalled"
  | .calledTimes _ => "toHaveBeenCalledTimes"
  | .calledWith _ => "toHaveBeenCalledWith"
  | .lastCalledWith _ => "toHaveBeenLastCalledWith"
  | .nthCalledWith _ _ => "toHaveBeenNthCalledWith"
  | .ret => "toHaveReturned"
  | .retAlias => "toHaveReturned"
  | .retTimes _ => "toHaveReturnedTimes"
  | .retWith _ => "toHaveReturnedWith"
  | .lastRetWith _ => "toHaveLastReturnedWith"
  | .nthRetWith _ _ => "toHaveNthReturnedWith"

/-- Dispatch over the whole exported matcher set: run one matcher
invocation against a candidate value. -/
def runMatcher (received : Received) : MatcherArgs → Except MatcherError MatchResult
  | .called args => toHaveBeenCalled received args
  | .calledTimes expected => toHaveBeenCalledTimes received expected
  | .calledWith args => toHaveBeenCalledWith received args
  | .lastCalledWith args => toHaveBeenLastCalledWith received args
  | .nthCalledWith n args => toHaveBeenNthCalledWith received n args
  | .ret => toHaveReturned received
  | .retAlias => toReturn received
  | .retTimes times => toHaveReturnedTimes received times
  | .retWith expected => toHaveReturnedWith received expected
  | .lastRetWith expected => toHaveLastReturnedWith received expected
  | .nthRetWith n expected => toHaveNthReturnedWith received n expected

/-- The `TypeError` message the shape guard raises for a given unrecognised
candidate and matcher name (matching `ensureReceivedIsNodeMock`'s throws). -/
def shapeGuardMessage (received : Received) (matcherName : String) : String :=
  match received with
  | .notCallable v =>
      matcherErrorMessage (matcherHint matcherName (jsTypeof v) "function")
        (RECEIVED_COLOR "received" ++ " value must be a function")
  | _ =>
      matcherErrorMessage (matcherHint matcherName "mock.fn()" "")
        (RECEIVED_COLOR "received" ++ " value must be a node mock function")

/-! Helper lemmas shared by the claim theorems. -/

/-- `argumentsMatch` unfolded: equal lengths and pointwise deep equality. -/
lemma argumentsMatch_iff (a b : List Value) :
    argumentsMatch a b = true ↔
      a.length = b.length ∧ ∀ p ∈ a.zip b, toEqual p.1 p.2 = true := by
  unfold argumentsMatch
  split
  · next h => simp only [bne_iff_ne, ne_eq] at h; simp [h]
  · next h => simp only [bne_iff_ne, ne_eq, not_not] at h; simp [h, List.all_eq_true]

/-- JS element access at an integer index: ordinary list lookup when the
index is non-negative, `undefined` otherwise. -/
lemma jsElementAt_intCast (calls : List CallRecord) (m : Int) :
    jsElementAt calls (m : ℚ) = if 0 ≤ m then calls.get? m.toNat else none := by
  simp [jsElementAt, Rat.den_intCast, Rat.num_intCast]

/-- JS element access at a fractional index is `undefined`. -/
lemma jsElementAt_fraction (calls : List CallRecord) (q : ℚ) (h : q.den ≠ 1) :
    jsElementAt calls q = none := by
  simp [jsElementAt, h]

/-- Subtracting one from a non-integer rational leaves it non-integer. -/
lemma den_sub_one_ne_one (n : ℚ) (h : n.den ≠ 1) : (n - 1).den ≠ 1 := by
  intro h1
  apply h
  have h2 : ((n - 1).num : ℚ) = n - 1 := (Rat.den_eq_one_iff _).mp h1
  have h3 : n = (((n - 1).num + 1 : ℤ) : ℚ) := by push_cast [h2]; ring
  rw [h3, Rat.den_intCast]

/-- The source's last-element access `calls[calls.length - 1]` agrees with
`getLast?` on a non-empty list. -/
lemma getLast?_eq_getD (l : List CallRecord) (h : l ≠ []) :
    l.getLast? = some (l.getD (l.length - 1) default) := by
  have hlen : l.length - 1 < l.length := by
    cases l with
    | nil => simp at h
    | cons a as => simp
  rw [List.getD_eq_getElem _ _ hlen, List.getLast?_eq_getLast_of_ne_nil h,
    List.getLast_eq_getElem]

/-- `toHaveBeenCalledTimes` on a recognised mock: the pass flag is exact
equality of the record count with the expected count. -/
lemma calledTimes_spec (calls : List CallRecord) (k : Int) :
    ∃ r, toHaveBeenCalledTimes (Received.mockFn calls) k = .ok r ∧
      (r.pass = true ↔ (calls.length : Int) = k) :=
  ⟨_, rfl, by simp [mockCalls]⟩

/-! Claim theorems. -/

/-- Claim C1: for every recognised spy and expected argument list,
`toHaveBeenCalledWith` returns a normal result that passes iff at least one
recorded call's full argument sequence deep-equals the expected list — same
length and deep equality at every position; with zero recorded calls no such
record exists, so the matcher fails. -/
theorem toHaveBeenCalledWith_pass_iff_some_call_matches
    (calls : List CallRecord) (args : List Value) :
    ∃ r, toHaveBeenCalledWith (Received.mockFn calls) args = .ok r ∧
      (r.pass = true ↔ ∃ c ∈ calls, c.arguments.length = args.length ∧
        ∀ p ∈ c.arguments.zip args, toEqual p.1 p.2 = true) := by
  refine ⟨_, rfl, ?_⟩
  simp only [List.any_eq_true, argumentsMatch_iff, mockCalls]

/-- Claim C2 counterexample: a spy whose only recorded call raised still
makes `toHaveReturnedWith(spy, undefined)` pass, because the source compares
the record's `result` field (which is `undefined` for a raised call) without
consulting the `error` field — refuting "a record that raised never counts
toward a pass ... including expectedValue = undefined". -/
theorem toHaveReturnedWith_undefined_passes_on_raised_call :
    ∃ r, toHaveReturnedWith
      (Received.mockFn [CallRecord.raised [] (Value.str "boom")]) Value.undefined = .ok r ∧
      r.pass = true :=
  ⟨_, rfl, rfl⟩

/-- Claim C2 (amended): `toHaveReturnedWith` passes iff at least one call
record's `result` field deep-equals the expected value, where a raised
record's `result` field is `undefined` — so a raised record counts toward a
pass exactly when the expected value deep-equals `undefined`. -/
theorem toHaveReturnedWith_pass_iff_some_result_matches
    (calls : List CallRecord) (v : Value) :
    ∃ r, toHaveReturnedWith (Received.mockFn calls) v = .ok r ∧
      (r.pass = true ↔ ∃ c ∈ calls, toEqual c.result v = true) := by
  refine ⟨_, rfl, ?_⟩
  simp only [List.any_eq_true, mockCalls]

/-- Claim C3 counterexample: a spy whose most recent call raised still makes
`toHaveLastReturnedWith(spy, undefined)` pass — the source compares the last
record's `result` field (`undefined` for a raised call) without consulting
the `error` field — refuting "if the most recent call raised it
automatically fails for every expectedValue". -/
theorem toHaveLastReturnedWith_undefined_passes_on_raised_last_call :
    ∃ r, toHaveLastReturnedWith
      (Received.mockFn [CallRecord.returned [Value.str "x"] (Value.str "ok"),
        CallRecord.raised [] (Value.str "boom")]) Value.undefined = .ok r ∧
      r.pass = true :=
  ⟨_, rfl, rfl⟩

/-- Claim C3 (amended): `toHaveLastReturnedWith` passes iff the spy has a
most recent call record and that record's `result` field deep-equals the
expected value, where a raised record's `result` field is `undefined`; with
zero recorded calls it fails. -/
theorem toHaveLastReturnedWith_pass_iff_last_result_matches
    (calls : List CallRecord) (v : Value) :
    ∃ r, toHaveLastReturnedWith (Received.mockFn calls) v = .ok r ∧
      (r.pass = true ↔ ∃ c, calls.getLast? = some c ∧ toEqual c.result v = true) := by
  cases calls with
  | nil => exact ⟨_, rfl, by simp⟩
  | cons c cs =>
    refine ⟨_, rfl, ?_⟩
    rw [getLast?_eq_getD (c :: cs) (by simp)]
    simp [mockCalls]

/-- Claim C4: for every recognised spy and every integer index `n`,
`toHaveBeenNthCalledWith` returns a normal result that passes iff `n` is in
`[1, count]` and the nth (1-based) call record's arguments deep-equal the
expected list; any integer outside `[1, count]` (including every `n` when
the count is 0) makes the right-hand side false, so the matcher fails
regardless of the expected arguments. -/
theorem toHaveBeenNthCalledWith_integer_pass_iff
    (calls : List CallRecord) (n : Int) (args : List Value) :
    ∃ r, toHaveBeenNthCalledWith (Received.mockFn calls) (n : ℚ) args = .ok r ∧
      (r.pass = true ↔ 1 ≤ n ∧ n ≤ (calls.length : Int) ∧
        ∃ c, calls.get? (n - 1).toNat = some c ∧ argumentsMatch c.arguments args = true) := by
  dsimp only [toHaveBeenNthCalledWith, ensureReceivedIsNodeMock, mockCalls]
  split
  · next hguard =>
    refine ⟨_, rfl, ?_⟩
    constructor
    · intro h; exact absurd h (by simp)
    · rintro ⟨h1, h2, -⟩
      exfalso
      rcases hguard with h | h
      · have hq : (1 : ℚ) ≤ (n : ℚ) := by exact_mod_cast h1
        linarith
      · have hq : (n : ℚ) ≤ ((calls.length : ℕ) : ℚ) := by exact_mod_cast h2
        linarith
  · next hguard =>
    push_neg at hguard
    obtain ⟨hge, hle⟩ := hguard
    have h1 : 1 ≤ n := by exact_mod_cast hge
    have h2 : n ≤ (calls.length : Int) := by exact_mod_cast hle
    have hcast : (n : ℚ) - 1 = ((n - 1 : ℤ) : ℚ) := by push_cast; ring
    have hlt : (n - 1).toNat < calls.length := by omega
    obtain ⟨c, hc⟩ : ∃ c, calls.get? (n - 1).toNat = some c := by
      rw [List.get?_eq_getElem?, List.getElem?_eq_getElem hlt]
      exact ⟨_, rfl⟩
    have helem : jsElementAt calls ((n : ℚ) - 1) = some c := by
      rw [hcast, jsElementAt_intCast, if_pos (by omega)]
      exact hc
    rw [helem]
    refine ⟨_, rfl, ?_⟩
    have htn : (n - 1).toNat = n.toNat - 1 := by omega
    rw [htn, List.get?_eq_getElem?] at hc
    simp [h1, h2, hc]

/-- Claim C5: for every candidate that is not the recognised spy shape (not
callable, or callable without an object-typed `mock` property) and every
matcher of the set, the matcher call raises a `TypeError` synchronously — it
is an `.error`, never a `{pass, message}` result — whose message is the
shape guard's: the `matcherHint` line naming the matcher (for the alias
`toReturn`, the delegate name `toHaveReturned`) followed by "received value
must be a function" for a non-callable candidate and "received value must be
a node mock function" for a callable one without the mock container. -/
theorem nonMock_matcher_raises_shape_guard_TypeError
    (r : Received) (h : isNodeMock r = false) (a : MatcherArgs) :
    runMatcher r a = .error (.typeError (shapeGuardMessage r (MatcherArgs.name a))) := by
  cases r with
  | notCallable v => cases a <;> rfl
  | callableNonMock => cases a <;> rfl
  | mockFn calls => simp [isNodeMock] at h

/-- Claim C5 witness: a plain callable without the mock container, passed to
`toHaveBeenCalled`, raises the shape-guard `TypeError`. -/
theorem nonMock_matcher_raises_shape_guard_TypeError_witness :
    isNodeMock Received.callableNonMock = false ∧
    runMatcher Received.callableNonMock (MatcherArgs.called []) =
      .error (.typeError (shapeGuardMessage Received.callableNonMock
        (MatcherArgs.name (MatcherArgs.called [])))) :=
  ⟨rfl, nonMock_matcher_raises_shape_guard_TypeError Received.callableNonMock rfl
    (MatcherArgs.called [])⟩

/-- Claim C6: `toHaveBeenCalledTimes` passes iff the expected count strictly
equals the recorded call count; at the boundaries, count − 1 and count + 1
both fail, and a spy with zero recorded calls passes for expected count 0. -/
theorem toHaveBeenCalledTimes_pass_iff_exact_count
    (calls : List CallRecord) (k : Int) :
    (∃ r, toHaveBeenCalledTimes (Received.mockFn calls) k = .ok r ∧
      (r.pass = true ↔ (calls.length : Int) = k)) ∧
    (∀ r, toHaveBeenCalledTimes (Received.mockFn calls) ((calls.length : Int) - 1) = .ok r →
      r.pass = false) ∧
    (∀ r, toHaveBeenCalledTimes (Received.mockFn calls) ((calls.length : Int) + 1) = .ok r →
      r.pass = false) ∧
    (∀ r, toHaveBeenCalledTimes (Received.mockFn []) 0 = .ok r → r.pass = true) := by
  refine ⟨calledTimes_spec calls k, ?_, ?_, ?_⟩
  · intro r hr
    obtain ⟨r2, hr2, hiff⟩ := calledTimes_spec calls ((calls.length : Int) - 1)
    rw [hr] at hr2
    simp only [Except.ok.injEq] at hr2
    subst hr2
    rw [Bool.eq_false_iff]
    intro hp
    have := hiff.mp hp
    omega
  · intro r hr
    obtain ⟨r2, hr2, hiff⟩ := calledTimes_spec calls ((calls.length : Int) + 1)
    rw [hr] at hr2
    simp only [Except.ok.injEq] at hr2
    subst hr2
    rw [Bool.eq_false_iff]
    intro hp
    have := hiff.mp hp
    omega
  · intro r hr
    obtain ⟨r2, hr2, hiff⟩ := calledTimes_spec [] 0
    rw [hr] at hr2
    simp only [Except.ok.injEq] at hr2
    subst hr2
    exact hiff.mpr rfl

/-- Claim C7 counterexample: supplying an expected argument to
`toHaveBeenCalled` does NOT raise — the matcher returns an ordinary
`{pass: false, message}` result (whose message text is a usage-error
description), refuting "not a normal pass/fail result". -/
theorem toHaveBeenCalled_extra_argument_returns_result :
    ∃ r, toHaveBeenCalled (Received.mockFn []) [Value.num 1] = .ok r ∧ r.pass = false :=
  ⟨_, rfl, rfl⟩

/-- Claim C7 (amended): `toHaveBeenCalled` with no expected argument passes
iff the recorded call count is positive; when an expected argument is
supplied it returns a normal `pass: false` result (not a raise) whose
message is a usage-error text stating the matcher must not have an expected
argument and giving the supplied value's `typeof` and printed form. -/
theorem toHaveBeenCalled_spec_with_usage_error_message
    (calls : List CallRecord) (args : List Value) :
    ∃ r, toHaveBeenCalled (Received.mockFn calls) args = .ok r ∧
      (args = [] → (r.pass = true ↔ 0 < calls.length)) ∧
      (∀ a rest, args = a :: rest → r.pass = false ∧
        r.message =
          "\n" ++ matcherHint "toHaveBeenCalled" "mock.fn()" "" ++ "\n\n" ++
            "Matcher error: this matcher must not have an expected argument\n" ++
            "Expected has type:  " ++ jsTypeof a ++ "\nExpected has value: " ++
            EXPECTED_COLOR (stringify a) ++ "\n") := by
  cases args with
  | nil =>
    refine ⟨_, rfl, fun _ => ?_, fun a rest h => by cases h⟩
    simp [mockCalls]
  | cons a rest =>
    refine ⟨_, rfl, ?_, ?_⟩
    · intro h; cases h
    · intro a' rest' h
      injection h with h1 h2
      subst h1
      exact ⟨rfl, rfl⟩

/-- Claim C8: `toReturn` delegates to `toHaveReturned`, so the two agree on
every candidate (same raised errors, same pass values, same messages); and
on a recognised spy, `toHaveReturned` passes iff at least one call record
completed without an error set. -/
theorem toReturn_alias_of_toHaveReturned :
    (∀ r : Received, toReturn r = toHaveReturned r) ∧
    (∀ calls : List CallRecord, ∃ m, toHaveReturned (Received.mockFn calls) = .ok m ∧
      (m.pass = true ↔ ∃ c ∈ calls, c.errorIsUndefined = true)) := by
  refine ⟨fun r => rfl, fun calls => ⟨_, rfl, ?_⟩⟩
  simp only [List.any_eq_true, mockCalls]

/-- Claim C9: every matcher of the set is a pure function of the candidate's
contents and the supplied arguments — the embedding threads no mutable state
because the source only reads `receivedMethod.mock.calls` and never writes —
so two invocations against spies with identical call-history contents return
identical results (in particular, equal pass values; repeated invocation of
the same matcher on the same unmutated spy is idempotent). -/
theorem matcher_results_determined_by_spy_contents
    (r s : Received) (a : MatcherArgs) (h : r = s) :
    runMatcher r a = runMatcher s a := by
  rw [h]

/-- Claim C9 witness: two invocations of `toHaveReturned` against the same
empty-history spy yield the same result. -/
theorem matcher_results_determined_by_spy_contents_witness :
    Received.mockFn [] = Received.mockFn [] ∧
    runMatcher (Received.mockFn []) MatcherArgs.ret =
      runMatcher (Received.mockFn []) MatcherArgs.ret :=
  ⟨rfl, matcher_results_determined_by_spy_contents (Received.mockFn [])
    (Received.mockFn []) MatcherArgs.ret rfl⟩

/-- Claim C10 counterexample: with two recorded calls, the non-integer index
n = 5/2 satisfies 1 < n < count + 1, yet both nth matchers return a normal
`{pass, message}` result instead of raising: the range guard
`n > callsCount` already catches every n in (count, count + 1), so the
claimed region is too wide. -/
theorem nth_matchers_fractional_above_count_return_normally :
    ((mkRat 5 2).den ≠ 1 ∧ 1 < mkRat 5 2 ∧ mkRat 5 2 < 3) ∧
    (toHaveBeenNthCalledWith
      (Received.mockFn [CallRecord.returned [Value.str "foo"] Value.undefined,
        CallRecord.returned [Value.str "bar"] Value.undefined]) (mkRat 5 2) []).isOk = true ∧
    (toHaveNthReturnedWith
      (Received.mockFn [CallRecord.returned [Value.str "foo"] Value.undefined,
        CallRecord.returned [Value.str "bar"] Value.undefined]) (mkRat 5 2) Value.undefined).isOk = true := by
  refine ⟨⟨?_, ?_, ?_⟩, ?_, ?_⟩ <;> decide

/-- Claim C10 (amended): for a recognised spy and a non-integer index n with
1 < n < count (strictly below the call count, so the range guard does not
catch it), both `toHaveBeenNthCalledWith` and `toHaveNthReturnedWith` raise
a `TypeError` instead of returning a result: indexing the call list at n − 1
yields no record, and reading `.arguments` (resp. `.result`) on `undefined`
throws. -/
theorem nth_matchers_fractional_in_range_raise_TypeError
    (calls : List CallRecord) (n : ℚ) (args : List Value) (v : Value)
    (hden : n.den ≠ 1) (h1 : 1 < n) (h2 : n < (calls.length : ℚ)) :
    toHaveBeenNthCalledWith (Received.mockFn calls) n args =
      .error (.typeError "Cannot read properties of undefined (reading 'arguments')") ∧
    toHaveNthReturnedWith (Received.mockFn calls) n v =
      .error (.typeError "Cannot read properties of undefined (reading 'result')") := by
  have hguard : ¬(n < 1 ∨ n > (calls.length : ℚ)) := by
    push_neg
    exact ⟨le_of_lt h1, le_of_lt h2⟩
  have hnone : jsElementAt calls (n - 1) = none :=
    jsElementAt_fraction _ _ (den_sub_one_ne_one n hden)
  constructor
  · dsimp only [toHaveBeenNthCalledWith, ensureReceivedIsNodeMock, mockCalls]
    rw [if_neg hguard, hnone]
  · dsimp only [toHaveNthReturnedWith, ensureReceivedIsNodeMock, mockCalls]
    rw [if_neg hguard, hnone]

/-- Claim C10 witness: index 3/2 against a two-call spy raises the
`TypeError` in both nth matchers. -/
theorem nth_matchers_fractional_in_range_raise_TypeError_witness :
    ((mkRat 3 2).den ≠ 1 ∧ 1 < mkRat 3 2 ∧
      mkRat 3 2 < (([CallRecord.returned [] Value.null,
        CallRecord.returned [] Value.null].length : ℕ) : ℚ)) ∧
    toHaveBeenNthCalledWith
      (Received.mockFn [CallRecord.returned [] Value.null,
        CallRecord.returned [] Value.null]) (mkRat 3 2) [] =
      .error (.typeError "Cannot read properties of undefined (reading 'arguments')") :=
  ⟨⟨by decide, by decide, by decide⟩,
    (nth_matchers_fractional_in_range_raise_TypeError
      [CallRecord.returned [] Value.null, CallRecord.returned [] Value.null]
      (mkRat 3 2) [] Value.null (by decide) (by decide) (by decide)).1⟩
